import Mathlib

/-!
Verification of the TaxMantri core against its specification.

The development shallowly embeds the two specified cores:

* the deterministic dual-regime tax engine
  (`backend2/agents/evaluator_agent/tax_engine.py` together with the
  optimizer `backend/agents/evaluator_agent/optimizer.py` and the data
  contracts in `backend2/agents/input_agent/schemas.py` and
  `backend/agents/evaluator_agent/schemas.py`), and
* the hybrid-retrieval fusion and citation validation
  (`backend/agents/matcher_agent/retriever.py` and
  `backend/agents/matcher_agent/llm_service.py`).

Modelling conventions:

* Python floats are modelled as exact rationals (`ℚ`); `round(x, 2)` is
  modelled as exact decimal rounding half-to-even (`pyRound2`), which is the
  rounding mode Python's `round` implements.  Binary floating-point
  representation error is outside the model.
* Python `Optional[float]` fields are `Option ℚ`; the idiom `x or 0.0`
  is `orZero` (`Option.getD · 0`), which agrees with Python's `or` on
  non-negative inputs as well as on `some 0`.
* Strings that the code only ever builds and compares are kept as `String`
  or `List Char`; numeric f-string formatting is not modelled and rationale
  and suggestion texts are therefore represented structurally, keeping
  every numeric slot and label that the f-strings interpolate.
-/

namespace TaxMantri

/-! ## Exact decimal rounding, half to even (Python `round`) -/

/-- Round a rational to the nearest integer, ties to even
(the rounding of Python's built-in `round`). -/
def rhe (q : ℚ) : ℤ :=
  if q - ⌊q⌋ < 1/2 then ⌊q⌋
  else if 1/2 < q - ⌊q⌋ then ⌊q⌋ + 1
  else if ⌊q⌋ % 2 = 0 then ⌊q⌋ else ⌊q⌋ + 1

/-- Python `round(x, 2)` on the exact rational model. -/
def pyRound2 (q : ℚ) : ℚ := (rhe (q * 100) : ℚ) / 100

/-- `q` sits exactly half way between two multiples of `1/100`; this is the
only situation in which Python's `round` rounds `t` and `t + cess` to
"different sides". -/
def isHalfPaisaTie (q : ℚ) : Prop := q * 100 - ⌊q * 100⌋ = 1/2

instance (q : ℚ) : Decidable (isHalfPaisaTie q) := by
  unfold isHalfPaisaTie
  infer_instance

/-! ## Data model (`backend2/agents/input_agent/schemas.py`,
`backend/agents/evaluator_agent/schemas.py`) -/

/-- `CityType` enum. -/
inductive CityType where
  | metro
  | non_metro
deriving DecidableEq

/-- `AgeBracket` enum (`under60`, `60_79`, `80plus`). -/
inductive AgeBracket where
  | under60
  | sixty_79
  | eighty_plus
deriving DecidableEq

/-- `InputMethod` enum. -/
inductive InputMethod where
  | ocr
  | manual
deriving DecidableEq

/-- `UserFinancialProfile` — the central data contract.  Optional monetary
fields are `Option ℚ` (Pydantic `Optional[float]` with default `0`). -/
structure UserFinancialProfile where
  profile_id : String := ""
  basic_salary : ℚ
  hra_received : Option ℚ := some 0
  other_allowances : Option ℚ := some 0
  professional_tax : Option ℚ := some 0
  lta : Option ℚ := some 0
  special_allowance : Option ℚ := some 0
  monthly_rent_paid : Option ℚ := some 0
  city_type : CityType
  other_income : Option ℚ := some 0
  investments_80c : Option ℚ := some 0
  ppf_contribution : Option ℚ := some 0
  home_loan_principal : Option ℚ := some 0
  health_insurance_self : Option ℚ := some 0
  health_insurance_parents : Option ℚ := some 0
  employee_nps_80ccd1b : Option ℚ := some 0
  employer_nps_80ccd2 : Option ℚ := some 0
  home_loan_interest : Option ℚ := some 0
  savings_interest_80tta : Option ℚ := some 0
  age_bracket : AgeBracket
  input_method : InputMethod
  parent_senior_citizen : Bool := false

/-- Python's `x or 0.0` on an optional monetary field: `None` and `0` both
give `0`, any other value gives itself. -/
def orZero (x : Option ℚ) : ℚ := x.getD 0

/-- The schema's validity constraints (Pydantic `ge`/`le` bounds and the
cross-field `hra_received <= basic_salary` validator).  The engine never
checks these; they document which concrete profiles are legal inputs. -/
def ValidProfile (p : UserFinancialProfile) : Prop :=
  0 ≤ p.basic_salary ∧ 0 ≤ orZero p.hra_received ∧ 0 ≤ orZero p.other_allowances ∧
  0 ≤ orZero p.professional_tax ∧ orZero p.professional_tax ≤ 2400 ∧
  0 ≤ orZero p.lta ∧ 0 ≤ orZero p.special_allowance ∧
  0 ≤ orZero p.monthly_rent_paid ∧ 0 ≤ orZero p.other_income ∧
  0 ≤ orZero p.investments_80c ∧ 0 ≤ orZero p.health_insurance_self ∧
  0 ≤ orZero p.health_insurance_parents ∧ 0 ≤ orZero p.employee_nps_80ccd1b ∧
  0 ≤ orZero p.employer_nps_80ccd2 ∧ 0 ≤ orZero p.home_loan_interest ∧
  0 ≤ orZero p.savings_interest_80tta ∧
  orZero p.hra_received ≤ p.basic_salary

/-- `DeductionBreakdown` — itemised post-cap deductions for one regime. -/
structure DeductionBreakdown where
  standard_deduction : ℚ := 0
  hra_exemption : ℚ := 0
  section_80c : ℚ := 0
  section_80d : ℚ := 0
  section_80ccd1b : ℚ := 0
  section_80ccd2 : ℚ := 0
  section_80tta_ttb : ℚ := 0
  section_24b : ℚ := 0
  professional_tax : ℚ := 0
deriving DecidableEq

/-- `RegimeResult` — the full computation for one regime. -/
structure RegimeResult where
  gross_income : ℚ
  total_deductions : ℚ
  taxable_income : ℚ
  tax_before_cess : ℚ
  cess : ℚ
  total_tax : ℚ
  deduction_breakdown : DeductionBreakdown
deriving DecidableEq

/-! ## Tax engine constants and slab tables
(`backend2/agents/evaluator_agent/tax_engine.py`) -/

def OLD_STD_DEDUCTION : ℚ := 50000

def NEW_STD_DEDUCTION : ℚ := 75000

def CAP_80C : ℚ := 150000

def CAP_80D_SELF_UNDER60 : ℚ := 25000

def CAP_80D_SELF_SENIOR : ℚ := 50000

def CAP_80D_PARENTS_NON_SENIOR : ℚ := 25000

def CAP_80D_PARENTS_SENIOR : ℚ := 50000

def CAP_80CCD1B : ℚ := 50000

def CAP_80CCD2_PCT : ℚ := 10/100

def CAP_80TTA : ℚ := 10000

def CAP_80TTB : ℚ := 50000

def CAP_24B : ℚ := 200000

def CESS_RATE : ℚ := 4/100

def OLD_87A_MAX_REBATE : ℚ := 12500

def OLD_87A_TAXABLE_CEILING : ℚ := 500000

def NEW_87A_MAX_REBATE : ℚ := 60000

def NEW_87A_TAXABLE_CEILING : ℚ := 1200000

/-- A slab is `(ceiling, rate)`; the unbounded final bracket's
`float("inf")` ceiling is `none`. -/
abbrev Slab := Option ℚ × ℚ

def OLD_REGIME_SLABS : List Slab :=
  [(some 250000, 0), (some 500000, 5/100), (some 1000000, 20/100), (none, 30/100)]

def NEW_REGIME_SLABS : List Slab :=
  [(some 400000, 0), (some 800000, 5/100), (some 1200000, 10/100),
   (some 1600000, 15/100), (some 2000000, 20/100), (some 2400000, 25/100),
   (none, 30/100)]

/-- `min(taxable_income, ceiling)` with `ceiling` possibly `inf`. -/
def minWithCeil (ti : ℚ) : Option ℚ → ℚ
  | none => ti
  | some c => min ti c

/-- The loop of `_calculate_slab_tax`: `prev` is the previous ceiling
(`none` once an unbounded bracket has been passed, after which the
`taxable_income <= prev_ceiling` test always breaks). -/
def slabLoop (ti : ℚ) : Option ℚ → List Slab → ℚ → ℚ
  | none, _, tax => tax
  | some _, [], tax => tax
  | some p, (ceiling, rate) :: rest, tax =>
    if ti ≤ p then tax
    else slabLoop ti ceiling rest (tax + (minWithCeil ti ceiling - p) * rate)

/-- `_calculate_slab_tax` — progressive bracket tax with early break. -/
def calculate_slab_tax (taxable_income : ℚ) (slabs : List Slab) : ℚ :=
  slabLoop taxable_income (some 0) slabs 0

/-- `calculate_hra_exemption` — Rule 2A minimum of three components,
zero when no HRA is received or no rent is paid. -/
def calculate_hra_exemption (p : UserFinancialProfile) : ℚ :=
  let hra := orZero p.hra_received
  let rent := orZero p.monthly_rent_paid
  if hra = 0 ∨ rent = 0 then 0
  else
    let metro_pct : ℚ := match p.city_type with
      | CityType.metro => 50/100
      | CityType.non_metro => 40/100
    let annual_rent := rent * 12
    let component_1 := hra
    let component_2 := metro_pct * p.basic_salary
    let component_3 := max 0 (annual_rent - (10/100) * p.basic_salary)
    min (min component_1 component_2) component_3

/-- `_calculate_80d` — independent self and parent caps, no combined cap. -/
def calculate_80d (p : UserFinancialProfile) : ℚ :=
  let self_cap := match p.age_bracket with
    | AgeBracket.sixty_79 => CAP_80D_SELF_SENIOR
    | AgeBracket.eighty_plus => CAP_80D_SELF_SENIOR
    | AgeBracket.under60 => CAP_80D_SELF_UNDER60
  let parent_cap := match p.parent_senior_citizen with
    | true => CAP_80D_PARENTS_SENIOR
    | false => CAP_80D_PARENTS_NON_SENIOR
  min (orZero p.health_insurance_self) self_cap
    + min (orZero p.health_insurance_parents) parent_cap

/-- `_calculate_80tta_ttb_old` — 80TTA under 60, 80TTB for seniors. -/
def calculate_80tta_ttb_old (p : UserFinancialProfile) : ℚ :=
  let amount := orZero p.savings_interest_80tta
  match p.age_bracket with
  | AgeBracket.under60 => min amount CAP_80TTA
  | AgeBracket.sixty_79 => min amount CAP_80TTB
  | AgeBracket.eighty_plus => min amount CAP_80TTB

/-- `_apply_87a_old` — old-regime Section 87A rebate. -/
def apply_87a_old (taxable_income tax : ℚ) : ℚ :=
  if taxable_income ≤ OLD_87A_TAXABLE_CEILING then
    max 0 (tax - min tax OLD_87A_MAX_REBATE)
  else tax

/-- `_apply_87a_new` — new-regime Section 87A rebate. -/
def apply_87a_new (taxable_income tax : ℚ) : ℚ :=
  if taxable_income ≤ NEW_87A_TAXABLE_CEILING then
    max 0 (tax - min tax NEW_87A_MAX_REBATE)
  else tax

/-! ## Regime calculators.  Steps 1-7 of `calculate_old_regime` /
`calculate_new_regime` are split into named definitions so theorems can
refer to the intermediate values; the record built at the end is exactly
the `RegimeResult(...)` constructor call of the source. -/

/-- Step 1 (identical in both regimes): gross income. -/
def gross_income (p : UserFinancialProfile) : ℚ :=
  p.basic_salary + orZero p.hra_received + orZero p.lta
    + orZero p.special_allowance + orZero p.other_allowances + orZero p.other_income

/-- Old regime, step 2: the deduction breakdown. -/
def old_breakdown (p : UserFinancialProfile) : DeductionBreakdown :=
  { standard_deduction := OLD_STD_DEDUCTION
    hra_exemption := calculate_hra_exemption p
    section_80c := min (orZero p.investments_80c) CAP_80C
    section_80d := calculate_80d p
    section_80ccd1b := min (orZero p.employee_nps_80ccd1b) CAP_80CCD1B
    section_80ccd2 := 0
    section_80tta_ttb := calculate_80tta_ttb_old p
    section_24b := min (orZero p.home_loan_interest) CAP_24B
    professional_tax := orZero p.professional_tax }

def old_total_deductions (p : UserFinancialProfile) : ℚ :=
  let bd := old_breakdown p
  bd.standard_deduction + bd.hra_exemption + bd.section_80c + bd.section_80d
    + bd.section_80ccd1b + bd.section_80ccd2 + bd.section_80tta_ttb
    + bd.section_24b + bd.professional_tax

/-- Old regime, step 3: taxable income, floored at zero. -/
def old_taxable_income (p : UserFinancialProfile) : ℚ :=
  max 0 (gross_income p - old_total_deductions p)

/-- Old regime, steps 4-5: slab tax, then the 87A rebate. -/
def old_tax_after_87a (p : UserFinancialProfile) : ℚ :=
  apply_87a_old (old_taxable_income p)
    (calculate_slab_tax (old_taxable_income p) OLD_REGIME_SLABS)

/-- `calculate_old_regime` — steps 6-7 (cess and total) and the result record. -/
def calculate_old_regime (p : UserFinancialProfile) : RegimeResult :=
  let tax_after_87a := old_tax_after_87a p
  let cess := pyRound2 (tax_after_87a * CESS_RATE)
  { gross_income := gross_income p
    total_deductions := old_total_deductions p
    taxable_income := old_taxable_income p
    tax_before_cess := pyRound2 tax_after_87a
    cess := cess
    total_tax := pyRound2 (tax_after_87a + cess)
    deduction_breakdown := old_breakdown p }

/-- New regime, step 2: only the standard deduction and capped employer NPS;
every other section is hard-excluded (the record's defaults are 0, exactly as
the Pydantic model's field defaults). -/
def new_breakdown (p : UserFinancialProfile) : DeductionBreakdown :=
  { standard_deduction := NEW_STD_DEDUCTION
    section_80ccd2 :=
      min (orZero p.employer_nps_80ccd2) (CAP_80CCD2_PCT * p.basic_salary) }

def new_total_deductions (p : UserFinancialProfile) : ℚ :=
  NEW_STD_DEDUCTION + min (orZero p.employer_nps_80ccd2) (CAP_80CCD2_PCT * p.basic_salary)

def new_taxable_income (p : UserFinancialProfile) : ℚ :=
  max 0 (gross_income p - new_total_deductions p)

def new_tax_after_87a (p : UserFinancialProfile) : ℚ :=
  apply_87a_new (new_taxable_income p)
    (calculate_slab_tax (new_taxable_income p) NEW_REGIME_SLABS)

/-- `calculate_new_regime`. -/
def calculate_new_regime (p : UserFinancialProfile) : RegimeResult :=
  let tax_after_87a := new_tax_after_87a p
  let cess := pyRound2 (tax_after_87a * CESS_RATE)
  { gross_income := gross_income p
    total_deductions := new_total_deductions p
    taxable_income := new_taxable_income p
    tax_before_cess := pyRound2 tax_after_87a
    cess := cess
    total_tax := pyRound2 (tax_after_87a + cess)
    deduction_breakdown := new_breakdown p }

/-! ## Optimizer (`backend/agents/evaluator_agent/optimizer.py`).
Suggestion texts are f-strings over a section label, the headroom and the
(display-rounded) saving; they are modelled structurally as
`(section label, headroom, unrounded saving)` triples — the sort key is the
unrounded saving, exactly as in the source. -/

def SUGGESTION_MIN_SAVING : ℚ := 1000

def MAX_SUGGESTIONS : ℕ := 3

/-- One suggestion: the section it names, the headroom quoted in the text,
and the estimated saving (the sort key). -/
structure SuggestionS where
  section_label : String
  headroom : ℚ
  saving : ℚ
deriving DecidableEq

/-- `_old_marginal_rate` — cess-inclusive marginal rate, old regime. -/
def old_marginal_rate (taxable_income : ℚ) : ℚ :=
  if taxable_income > 1000000 then (30/100) * (104/100)
  else if taxable_income > 500000 then (20/100) * (104/100)
  else if taxable_income > 250000 then (5/100) * (104/100)
  else 0

/-- `_new_marginal_rate` — cess-inclusive marginal rate, new regime. -/
def new_marginal_rate (taxable_income : ℚ) : ℚ :=
  if taxable_income > 2400000 then (30/100) * (104/100)
  else if taxable_income > 2000000 then (25/100) * (104/100)
  else if taxable_income > 1600000 then (20/100) * (104/100)
  else if taxable_income > 1200000 then (15/100) * (104/100)
  else if taxable_income > 800000 then (10/100) * (104/100)
  else if taxable_income > 400000 then (5/100) * (104/100)
  else 0

/-- One candidate of `generate_old_suggestions`: emitted only when
`headroom > 0` and `saving >= 1000`. -/
def suggestionCandidate (label : String) (headroom rate : ℚ) : List SuggestionS :=
  if headroom > 0 ∧ headroom * rate ≥ SUGGESTION_MIN_SAVING then
    [{ section_label := label, headroom := headroom, saving := headroom * rate }]
  else []

/-- Python's stable `list.sort(key=..., reverse=True)` on the saving key:
a stable insertion sort for the "saving not smaller" relation. -/
def sortBySavingDesc (l : List SuggestionS) : List SuggestionS :=
  List.insertionSort (fun a b => b.saving ≤ a.saving) l

/-- `generate_old_suggestions`. -/
def generate_old_suggestions (p : UserFinancialProfile) (old_result : RegimeResult) :
    List SuggestionS :=
  let effective_rate := old_marginal_rate old_result.taxable_income
  if effective_rate = 0 then []
  else
    let bd := old_result.deduction_breakdown
    let self_cap := match p.age_bracket with
      | AgeBracket.sixty_79 => CAP_80D_SELF_SENIOR
      | AgeBracket.eighty_plus => CAP_80D_SELF_SENIOR
      | AgeBracket.under60 => CAP_80D_SELF_UNDER60
    let parent_cap := match p.parent_senior_citizen with
      | true => CAP_80D_PARENTS_SENIOR
      | false => CAP_80D_PARENTS_NON_SENIOR
    let candidates :=
      suggestionCandidate "80C" (CAP_80C - bd.section_80c) effective_rate
      ++ suggestionCandidate "80D self"
          (self_cap - min (orZero p.health_insurance_self) self_cap) effective_rate
      ++ suggestionCandidate "80D parents"
          (parent_cap - min (orZero p.health_insurance_parents) parent_cap) effective_rate
      ++ suggestionCandidate "80CCD(1B)" (CAP_80CCD1B - bd.section_80ccd1b) effective_rate
      ++ suggestionCandidate "24(b)" (CAP_24B - bd.section_24b) effective_rate
    (sortBySavingDesc candidates).take MAX_SUGGESTIONS

/-- `generate_new_suggestions`. -/
def generate_new_suggestions (p : UserFinancialProfile) (new_result : RegimeResult) :
    List SuggestionS :=
  let effective_rate := new_marginal_rate new_result.taxable_income
  if effective_rate = 0 then []
  else
    let nps_cap := CAP_80CCD2_PCT * p.basic_salary
    let headroom := nps_cap - new_result.deduction_breakdown.section_80ccd2
    if headroom > 0 ∧ headroom * effective_rate ≥ SUGGESTION_MIN_SAVING then
      [{ section_label := "80CCD(2)", headroom := headroom,
         saving := headroom * effective_rate }]
    else []

/-! ## Regime comparison (`compare_regimes`).
The rationale f-string is modelled structurally: each constructor keeps
every numeric slot the corresponding template interpolates, and `oldWins`
keeps the `key_deds[:3]` list of (deduction label, amount) pairs. -/

/-- The three rationale templates of `compare_regimes`. -/
inductive RationaleT where
  | tie (total : ℚ)
  | oldWins (savings old_total new_total : ℚ) (key_deds : List (String × ℚ))
  | newWins (savings new_total old_total old_total_deductions : ℚ)
deriving DecidableEq

/-- The `key_deds` list built in the old-wins branch: fixed candidate order
HRA exemption, 80C, 80D, Section 24(b), keeping only nonzero amounts,
then truncated to the first three (`key_deds[:3]`). -/
def rationaleKeyDeds (bd : DeductionBreakdown) : List (String × ℚ) :=
  ((if bd.hra_exemption > 0 then [("HRA exemption", bd.hra_exemption)] else [])
    ++ (if bd.section_80c > 0 then [("80C", bd.section_80c)] else [])
    ++ (if bd.section_80d > 0 then [("80D", bd.section_80d)] else [])
    ++ (if bd.section_24b > 0 then [("Section 24(b)", bd.section_24b)] else [])).take 3

/-- `TaxResult` — output of `compare_regimes` (suggestion lists modelled
structurally, `profile_id` set by the caller and omitted). -/
structure TaxResultM where
  old_regime : RegimeResult
  new_regime : RegimeResult
  recommended_regime : String
  savings_amount : ℚ
  rationale : RationaleT
  old_regime_suggestions : List SuggestionS
  new_regime_suggestions : List SuggestionS

/-- `compare_regimes` — runs both calculators, picks the lower total tax
(ties to "new"), builds the rationale and the per-regime suggestion lists. -/
def compare_regimes (p : UserFinancialProfile) : TaxResultM :=
  let old := calculate_old_regime p
  let new := calculate_new_regime p
  let rec_sav : String × ℚ :=
    if old.total_tax < new.total_tax then ("old", new.total_tax - old.total_tax)
    else if new.total_tax < old.total_tax then ("new", old.total_tax - new.total_tax)
    else ("new", 0)
  let recommended := rec_sav.1
  let savings := rec_sav.2
  let rationale :=
    if savings = 0 then RationaleT.tie old.total_tax
    else if recommended = "old" then
      RationaleT.oldWins savings old.total_tax new.total_tax
        (rationaleKeyDeds old.deduction_breakdown)
    else
      RationaleT.newWins savings new.total_tax old.total_tax old.total_deductions
  { old_regime := old
    new_regime := new
    recommended_regime := recommended
    savings_amount := pyRound2 savings
    rationale := rationale
    old_regime_suggestions := generate_old_suggestions p old
    new_regime_suggestions := generate_new_suggestions p new }

/-! ## Hybrid retrieval fusion (`TaxRetriever.hybrid_search`,
`backend/agents/matcher_agent/retriever.py`).

Chunks are represented by their `chunk_id` (the build contract guarantees
ids are unique, so the `chunk_map` translation between ids and chunk dicts
is a bijection); the id type is any linearly ordered type, standing for
Python strings under lexicographic order.  `dense_results` and
`sparse_results` are the ranked id lists obtained from `dense_search` /
`sparse_search` (rank 0 = best). -/

section Retrieval

variable {ι : Type} [DecidableEq ι] [LinearOrder ι]

/-- The accumulation loop
`rrf_scores[cid] = rrf_scores.get(cid, 0.0) + 1.0 / (60 + rank + 1)`
over one enumerated result list starting at rank `start`. -/
def rrfAccum (start : ℕ) (sc : ι → ℚ) : List ι → ι → ℚ
  | [], x => sc x
  | c :: t, x =>
    rrfAccum (start + 1) (fun y => if y = c then sc y + 1/(60 + (start : ℚ) + 1) else sc y) t x

/-- The fused RRF score table after both loops (dense first, then sparse). -/
def rrf_scores (dense sparse : List ι) : ι → ℚ :=
  rrfAccum 0 (rrfAccum 0 (fun _ => 0) dense) sparse

/-- `sorted(..., key=lambda cid: (-rrf_scores[cid], cid))`: descending fused
score, chunk id ascending as tie-break. -/
def rrfOrder (sc : ι → ℚ) (a b : ι) : Prop :=
  sc b < sc a ∨ (sc a = sc b ∧ a ≤ b)

instance rrfOrderDec (sc : ι → ℚ) : DecidableRel (rrfOrder sc) := fun _ _ =>
  inferInstanceAs (Decidable (_ ∨ _))

/-- `hybrid_search` in terms of chunk ids: the distinct ids of both lists
(Python dict keys), sorted by the key above, truncated to `top_k = 10`. -/
def hybrid_search (dense sparse : List ι) : List ι :=
  (List.insertionSort (rrfOrder (rrf_scores dense sparse)) (dense ++ sparse).dedup).take 10

end Retrieval

/-! ## Citation extraction and validation
(`backend/agents/matcher_agent/llm_service.py`).

`CITATION_REGEX` is: an opening bracket, the keyword alternation
`Section`, `Sec.`, `Sec`, `Rule` or `Regulation`, one or more whitespace
characters, a lazy nonempty capture over the class of word characters,
parentheses, dot, comma, digits, whitespace, slash and hyphen, then either
a comma with optional whitespace or whitespace-delimited `of the`, then one
of `IT Act`, `Income Tax Act`, `I.T. Act`, `IT Rules`, `Income Tax Rules`,
then any run of commas, whitespace and digits, then the closing bracket;
all case-insensitive (`re.IGNORECASE`).  The matcher below implements exactly this pattern with
Python's backtracking semantics specialised to it: alternations try branches
left to right, `\s+` is greedy with backtracking, the capture `+?` is lazy,
and the closing runs `\s*` after a comma, the `of the` glue, and `[,\s\d]*`
before `]` are safely maximal because the token that follows each of them
cannot begin with a character of the repeated class.  `\w` and `\s` are
modelled over ASCII (the knowledge-base text and citations are ASCII). -/

def isSpaceC (c : Char) : Bool :=
  c == ' ' || c == '\t' || c == '\n' || c == '\r' || c == '\x0b' || c == '\x0c'

def isWordC (c : Char) : Bool := c.isAlphanum || c == '_'

/-- The capture character class (word chars and `().,` digits, whitespace, slash, hyphen). -/
def isCapC (c : Char) : Bool :=
  isWordC c || c == '(' || c == ')' || c == '.' || c == ',' || isSpaceC c || c == '/' || c == '-'

/-- The trailing class (comma, whitespace, digit). -/
def isTailC (c : Char) : Bool := c == ',' || isSpaceC c || c.isDigit

/-- Case-insensitive literal match, returning the remainder. -/
def dropLitCI : List Char → List Char → Option (List Char)
  | [], s => some s
  | _ :: _, [] => none
  | p :: ps, c :: cs => if p.toLower == c.toLower then dropLitCI ps cs else none

def dropSpaces (s : List Char) : List Char := s.dropWhile (fun c => isSpaceC c)

/-- The act alternation followed by `[,\s\d]*\]`; returns the remainder
after the closing bracket.  Alternatives are tried in the regex's order. -/
def matchActTail (s : List Char) : Option (List Char) :=
  goActs ["IT Act", "Income Tax Act", "I.T. Act", "IT Rules", "Income Tax Rules"] s
  where
  oneAct (a : String) (s : List Char) : Option (List Char) :=
    match dropLitCI a.toList s with
    | none => none
    | some s1 =>
      match s1.dropWhile (fun c => isTailC c) with
      | ']' :: rest => some rest
      | _ => none
  goActs : List String → List Char → Option (List Char)
    | [], _ => none
    | a :: more, s =>
      match oneAct a s with
      | some r => some r
      | none => goActs more s

/-- The separator `(?:,\s*|\s+of\s+the\s+)` followed by the act and tail. -/
def matchSepActTail (s : List Char) : Option (List Char) :=
  match s with
  | ',' :: s1 => matchActTail (dropSpaces s1)
  | c :: _ =>
    if isSpaceC c then
      match dropLitCI ['o', 'f'] (dropSpaces s) with
      | none => none
      | some s2 =>
        match s2 with
        | c2 :: _ =>
          if isSpaceC c2 then
            match dropLitCI ['t', 'h', 'e'] (dropSpaces s2) with
            | none => none
            | some s3 =>
              match s3 with
              | c3 :: _ => if isSpaceC c3 then matchActTail (dropSpaces s3) else none
              | [] => none
          else none
        | [] => none
    else none
  | [] => none

/-- The lazy nonempty capture group: consume one class character at a
time, trying the rest of the pattern after each; returns the (nonempty)
capture and the remainder after the full match. -/
def captureFrom (acc : List Char) : List Char → Option (List Char × List Char)
  | [] => none
  | c :: rest =>
    if isCapC c then
      match matchSepActTail rest with
      | some r => some (acc ++ [c], r)
      | none => captureFrom (acc ++ [c]) rest
    else none

/-- `\s+` before the capture: greedy over the whitespace run length, with
backtracking from the longest width down to 1. -/
def spacesThenCapture : ℕ → List Char → Option (List Char × List Char)
  | 0, _ => none
  | w + 1, s =>
    match captureFrom [] (s.drop (w + 1)) with
    | some r => some r
    | none => spacesThenCapture w s

/-- The keyword alternation `(?:Section|Sec\.?|Rule|Regulation)` (with the
optional dot of `Sec\.?` expanded greedily), each followed by the rest of
the pattern, with backtracking across alternatives. -/
def matchKeywords : List String → List Char → Option (List Char × List Char)
  | [], _ => none
  | kw :: more, s =>
    match dropLitCI kw.toList s with
    | some s1 =>
      match spacesThenCapture ((s1.takeWhile (fun c => isSpaceC c)).length) s1 with
      | some r => some r
      | none => matchKeywords more s
    | none => matchKeywords more s

/-- A full match of `CITATION_REGEX` anchored at the current position (which
must hold the opening bracket); returns the group-1 capture and the
remainder after the match. -/
def matchCitationAt (s : List Char) : Option (List Char × List Char) :=
  match s with
  | '[' :: s1 => matchKeywords ["Section", "Sec.", "Sec", "Rule", "Regulation"] s1
  | _ => none

/-- `CITATION_REGEX.findall`: scan left to right, matches do not overlap.
`fuel` bounds the scan; every step consumes at least one character, so
`fuel = s.length` always suffices. -/
def findAllAux : ℕ → List Char → List (List Char)
  | 0, _ => []
  | _, [] => []
  | fuel + 1, c :: rest =>
    if c == '[' then
      match matchCitationAt (c :: rest) with
      | some (cap, rem) => cap :: findAllAux fuel rem
      | none => findAllAux fuel rest
    else findAllAux fuel rest

/-- All group-1 captures of `CITATION_REGEX` in the answer text. -/
def extractCitations (answer : List Char) : List (List Char) :=
  findAllAux answer.length answer

/-- Python `str.strip()` (ASCII whitespace). -/
def stripC (s : List Char) : List Char :=
  ((s.dropWhile (fun c => isSpaceC c)).reverse.dropWhile (fun c => isSpaceC c)).reverse

/-- `re.sub(r"[\s.]", "", s)` — drop whitespace and periods. -/
def stripSpaceDot (s : List Char) : List Char :=
  s.filter (fun c => !(isSpaceC c || c == '.'))

/-- Python's `needle in hay` on strings. -/
def containsSub : List Char → List Char → Bool
  | needle, hay =>
    if needle.isPrefixOf hay then true
    else match hay with
      | [] => false
      | _ :: t => containsSub needle t

/-- Python's `hay.find(needle)`. -/
def findSub : List Char → List Char → Option ℕ
  | needle, hay =>
    if needle.isPrefixOf hay then some 0
    else match hay with
      | [] => none
      | _ :: t => (findSub needle t).map (· + 1)

/-- A retrieved chunk as `validate_citations` consumes it: its `"text"`. -/
structure ChunkV where
  text : List Char
deriving DecidableEq

/-- One output citation: `{"section": ..., "excerpt": ...}`. -/
structure CitationOut where
  citSection : List Char
  excerpt : List Char
deriving DecidableEq

/-- The cross-check of one extracted reference: some chunk contains it
verbatim, or contains its space/period-stripped form after stripping the
chunk text the same way. -/
def chunkSupports (sectionRef : List Char) (c : ChunkV) : Bool :=
  containsSub sectionRef c.text
    || containsSub (stripSpaceDot sectionRef) (stripSpaceDot c.text)

/-- The body of the `for raw_section in matches` loop for one citation. -/
def mkCitation (chunks : List ChunkV) (raw : List Char) : CitationOut :=
  let sectionRef := stripC raw
  match chunks.find? (fun c => chunkSupports sectionRef c) with
  | none => { citSection := "Section ".toList ++ sectionRef, excerpt := [] }
  | some c =>
    let idx := (findSub sectionRef c.text).getD 0
    let start := idx - 30
    let stop := min c.text.length (idx + sectionRef.length + 100)
    { citSection := "Section ".toList ++ sectionRef
      excerpt := stripC ((c.text.drop start).take (stop - start)) }

/-- Whether one extracted reference passes the cross-check at all. -/
def citationVerified (chunks : List ChunkV) (raw : List Char) : Bool :=
  (chunks.find? (fun c => chunkSupports (stripC raw) c)).isSome

/-- The loop of `validate_citations`: the citation list in match order and
the `all_verified` flag. -/
def validateLoop (chunks : List ChunkV) : List (List Char) → List CitationOut × Bool
  | [] => ([], true)
  | raw :: rest =>
    let c := mkCitation chunks raw
    let v := citationVerified chunks raw
    let (cs, av) := validateLoop chunks rest
    (c :: cs, v && av)

/-- `validate_citations`. -/
def validate_citations (answer : List Char) (chunks : List ChunkV) :
    List CitationOut × String :=
  let ms := extractCitations answer
  if ms.isEmpty then ([], "low")
  else
    let r := validateLoop chunks ms
    (r.1, if !r.1.isEmpty && r.2 then "high" else "low")

/-! ## Spec-side definitions for claim C2 (refinement target).
`spec_progressive_tax` follows the specification's words: the sum over all
brackets of (portion of income in that bracket) × rate, with no early
break. -/

/-- Portion of `ti` that falls in the bracket `(prev, ceiling]`. -/
def spec_bracket_portion (ti prev : ℚ) (ceiling : Option ℚ) : ℚ :=
  max 0 (minWithCeil ti ceiling - prev)

/-- The specification's progressive sum over every bracket. -/
def spec_progressive_tax (ti : ℚ) : List Slab → ℚ → ℚ
  | [], _ => 0
  | (ceiling, rate) :: rest, prev =>
    spec_bracket_portion ti prev ceiling * rate
      + spec_progressive_tax ti rest (match ceiling with | some c => c | none => prev)

/-- The claim's hypothesis on a bracket table: ceilings strictly increase
from the running lower bound and the table ends with one unbounded
bracket. -/
inductive ValidSlabs : ℚ → List Slab → Prop where
  | last {p : ℚ} {r : ℚ} : ValidSlabs p [(none, r)]
  | cons {p c r : ℚ} {rest : List Slab} (h : p < c) (ih : ValidSlabs c rest) :
      ValidSlabs p ((some c, r) :: rest)

def scenarioA_profile : UserFinancialProfile :=
  { basic_salary := 800000
    city_type := CityType.non_metro
    age_bracket := AgeBracket.under60
    input_method := InputMethod.manual
    investments_80c := some 50000 }

/-- The profile refuting the claim's total-tax equation: basic salary
1050000.45 (valid: non-negative, no optional inputs), old regime.  The
post-rebate tax is 112500.135, an exact half-paisa tie. -/
def c4_profile : UserFinancialProfile :=
  { basic_salary := 1050000 + 45/100
    city_type := CityType.non_metro
    age_bracket := AgeBracket.under60
    input_method := InputMethod.manual }

/-- The profile witnessing C6's non-degenerate branch: metro, basic 600000,
HRA 100000, monthly rent 10000 (annual 120000; the three components are
100000, 300000 and 60000). -/
def c6_profile : UserFinancialProfile :=
  { basic_salary := 600000
    hra_received := some 100000
    monthly_rent_paid := some 10000
    city_type := CityType.metro
    age_bracket := AgeBracket.under60
    input_method := InputMethod.manual }

/-- The profile refuting C9 as stated: the old regime wins, the nonzero
applied deductions include Section 24(b) at 200000, yet the rationale names
HRA, 80C (only 1000) and 80D — the fixed candidate order, not the largest
amounts. -/
def c9_profile : UserFinancialProfile :=
  { basic_salary := 1500000
    hra_received := some 600000
    monthly_rent_paid := some 50000
    city_type := CityType.metro
    investments_80c := some 1000
    health_insurance_self := some 25000
    health_insurance_parents := some 50000
    parent_senior_citizen := true
    employee_nps_80ccd1b := some 50000
    savings_interest_80tta := some 10000
    professional_tax := some 2400
    home_loan_interest := some 200000
    age_bracket := AgeBracket.under60
    input_method := InputMethod.manual }

/-! ## Theorems -/

theorem rhe_of_abs_lt (q : ℚ) (n : ℤ) (h : |q - n| < 1/2) : rhe q = n := by
  rw [abs_sub_lt_iff] at h
  obtain ⟨h1, h2⟩ := h
  rcases le_or_lt (n : ℚ) q with hle | hlt
  · have hf : ⌊q⌋ = n := by
      rw [Int.floor_eq_iff]
      constructor
      · exact_mod_cast hle
      · linarith
    unfold rhe
    rw [hf]
    rw [if_pos (by linarith)]
  · have hf : ⌊q⌋ = n - 1 := by
      rw [Int.floor_eq_iff]
      constructor
      · push_cast
        linarith
      · push_cast
        linarith
    unfold rhe
    rw [hf]
    have hgt : 1/2 < q - ((n - 1 : ℤ) : ℚ) := by push_cast; linarith
    rw [if_neg (not_lt.mpr (le_of_lt hgt)), if_pos hgt]
    omega

theorem rhe_cases (q : ℚ) :
    |q - rhe q| < 1/2 ∨
      ((q - rhe q = 1/2 ∨ q - rhe q = -(1/2)) ∧ (rhe q) % 2 = 0) := by
  have hfl : (⌊q⌋ : ℚ) ≤ q := Int.floor_le q
  have hfu : q < ⌊q⌋ + 1 := Int.lt_floor_add_one q
  unfold rhe
  split_ifs with h1 h2 h3
  · left
    rw [abs_sub_lt_iff]
    constructor
    · exact h1
    · linarith
  · left
    rw [abs_sub_lt_iff]
    push_cast
    constructor
    · linarith
    · linarith
  · right
    have heq : q - (⌊q⌋ : ℚ) = 1/2 := le_antisymm (not_lt.mp h2) (not_lt.mp h1)
    exact ⟨Or.inl heq, h3⟩
  · right
    have heq : q - (⌊q⌋ : ℚ) = 1/2 := le_antisymm (not_lt.mp h2) (not_lt.mp h1)
    constructor
    · right
      push_cast
      linarith
    · omega

theorem rhe_abs_le (q : ℚ) : |q - rhe q| ≤ 1/2 := by
  rcases rhe_cases q with h | ⟨h, _⟩
  · exact le_of_lt h
  · rcases h with h | h
    · rw [h, abs_of_nonneg (by norm_num : (0:ℚ) ≤ 1/2)]
    · rw [h, abs_neg, abs_of_nonneg (by norm_num : (0:ℚ) ≤ 1/2)]

theorem rhe_half_add (m : ℤ) :
    rhe ((m : ℚ) + 1/2) = if m % 2 = 0 then m else m + 1 := by
  have hf : ⌊(m : ℚ) + 1/2⌋ = m := by
    rw [Int.floor_eq_iff]
    constructor
    · linarith
    · linarith
  unfold rhe
  rw [hf]
  have he : (m : ℚ) + 1/2 - (m : ℚ) = 1/2 := by ring
  rw [he, if_neg (lt_irrefl _), if_neg (lt_irrefl _)]

theorem rhe_intCast (n : ℤ) : rhe (n : ℚ) = n := by
  apply rhe_of_abs_lt
  simp

theorem rhe_add_int_of_ne_tie (q : ℚ) (k : ℤ) (h : |q - rhe q| < 1/2) :
    rhe (q + k) = rhe q + k := by
  apply rhe_of_abs_lt
  have : q + (k : ℚ) - ((rhe q + k : ℤ) : ℚ) = q - rhe q := by push_cast; ring
  rw [this]
  exact h

/-- Key interaction of half-even rounding with division by 25 (the shape in
which the 4% cess computation meets two-decimal rounding):
rounding `y/25` gives the same result as first rounding `y` and then
rounding the quotient. -/
theorem rhe_div25 (y : ℚ) : rhe (y / 25) = rhe ((rhe y : ℚ) / 25) := by
  obtain ⟨n, hn⟩ : ∃ n, rhe y = n := ⟨_, rfl⟩
  obtain ⟨m, hm⟩ : ∃ m, rhe ((n : ℚ) / 25) = m := ⟨_, rfl⟩
  rw [hn, hm]
  have habs : |(n : ℚ)/25 - m| ≤ 1/2 := by rw [← hm]; exact rhe_abs_le _
  have hdq : |(n : ℚ) - 25*m| ≤ 25/2 := by
    have h1 : (n : ℚ) - 25*m = 25 * ((n : ℚ)/25 - m) := by ring
    rw [h1, abs_mul, abs_of_nonneg (by norm_num : (0:ℚ) ≤ 25)]
    linarith [habs]
  have hdb : -12 ≤ n - 25*m ∧ n - 25*m ≤ 12 := by
    rw [abs_le] at hdq
    have hu : ((n - 25*m : ℤ) : ℚ) ≤ 25/2 := by push_cast; linarith [hdq.2]
    have hl : (-(25/2) : ℚ) ≤ ((n - 25*m : ℤ) : ℚ) := by push_cast; linarith [hdq.1]
    have hu13 : ((n - 25*m : ℤ) : ℚ) < 13 := lt_of_le_of_lt hu (by norm_num)
    have hl13 : (-13 : ℚ) < ((n - 25*m : ℤ) : ℚ) := lt_of_lt_of_le (by norm_num) hl
    have hu13i : (n - 25*m : ℤ) < 13 := by exact_mod_cast hu13
    have hl13i : (-13 : ℤ) < n - 25*m := by exact_mod_cast hl13
    omega
  have hc := rhe_cases y
  rw [hn] at hc
  rcases hc with hlt | ⟨htie, heven⟩
  · -- no tie in the first rounding: both sides round to the same integer
    apply rhe_of_abs_lt
    have h1 : |y/25 - (n : ℚ)/25| < 1/50 := by
      have he : y/25 - (n : ℚ)/25 = (y - n)/25 := by ring
      rw [he, abs_div, abs_of_nonneg (by norm_num : (0:ℚ) ≤ 25)]
      linarith [hlt]
    have h2 : |(n : ℚ)/25 - m| ≤ 12/25 := by
      have he : (n : ℚ)/25 - m = ((n - 25*m : ℤ) : ℚ)/25 := by push_cast; ring
      rw [he, abs_div, abs_of_nonneg (by norm_num : (0:ℚ) ≤ 25)]
      have : |((n - 25*m : ℤ) : ℚ)| ≤ 12 := by
        rw [abs_le]
        constructor <;> [exact_mod_cast hdb.1; exact_mod_cast hdb.2]
      linarith
    calc |y/25 - (m : ℚ)| ≤ |y/25 - (n : ℚ)/25| + |(n : ℚ)/25 - m| := abs_sub_le _ _ _
      _ < 1/50 + 12/25 := by linarith
      _ = 1/2 := by norm_num
  · -- the first rounding was an exact tie (`n` even)
    rcases htie with h | h
    · by_cases hedge : n - 25*m = 12
      · have hmev : m % 2 = 0 := by omega
        have hy : y/25 = (m : ℚ) + 1/2 := by
          have hni : n = 25*m + 12 := by omega
          have hnq : (n : ℚ) = 25*m + 12 := by exact_mod_cast hni
          rw [div_eq_iff (by norm_num : (25:ℚ) ≠ 0)]
          linarith [h, hnq]
        rw [hy, rhe_half_add, if_pos hmev]
      · apply rhe_of_abs_lt
        have hyd : y/25 - (m : ℚ) = ((2*(n - 25*m) + 1 : ℤ) : ℚ)/50 := by
          have hy' : y = (n : ℚ) + 1/2 := by linarith [h]
          rw [hy']
          push_cast
          ring
        rw [hyd, abs_div, abs_of_nonneg (by norm_num : (0:ℚ) ≤ 50)]
        have hb : |((2*(n - 25*m) + 1 : ℤ) : ℚ)| < 25 := by
          rw [abs_lt]
          constructor
          · exact_mod_cast (by omega : (-25 : ℤ) < 2*(n - 25*m) + 1)
          · exact_mod_cast (by omega : (2*(n - 25*m) + 1 : ℤ) < 25)
        linarith
    · by_cases hedge : n - 25*m = -12
      · have hmev : m % 2 = 0 := by omega
        have hy : y/25 = ((m - 1 : ℤ) : ℚ) + 1/2 := by
          have hni : n = 25*m - 12 := by omega
          have hnq : (n : ℚ) = 25*m - 12 := by exact_mod_cast hni
          rw [div_eq_iff (by norm_num : (25:ℚ) ≠ 0)]
          push_cast
          linarith [h, hnq]
        rw [hy, rhe_half_add, if_neg (by omega)]
        omega
      · apply rhe_of_abs_lt
        have hyd : y/25 - (m : ℚ) = ((2*(n - 25*m) - 1 : ℤ) : ℚ)/50 := by
          have hy' : y = (n : ℚ) - 1/2 := by linarith [h]
          rw [hy']
          push_cast
          ring
        rw [hyd, abs_div, abs_of_nonneg (by norm_num : (0:ℚ) ≤ 50)]
        have hb : |((2*(n - 25*m) - 1 : ℤ) : ℚ)| < 25 := by
          rw [abs_lt]
          constructor
          · exact_mod_cast (by omega : (-25 : ℤ) < 2*(n - 25*m) - 1)
          · exact_mod_cast (by omega : (2*(n - 25*m) - 1 : ℤ) < 25)
        linarith

/-- Rounding the 4% cess of the unrounded tax agrees with rounding the 4% cess
of the already-rounded tax. -/
theorem pyRound2_cess_comm (t : ℚ) :
    pyRound2 (t * (4/100)) = pyRound2 (pyRound2 t * (4/100)) := by
  unfold pyRound2
  have h1 : t * (4/100) * 100 = t * 100 / 25 := by ring
  have h2 : (rhe (t * 100) : ℚ) / 100 * (4/100) * 100 = (rhe (t * 100) : ℚ) / 25 := by
    ring
  rw [h1, h2, rhe_div25]

theorem pyRound2_add_mul_of_ne_tie (t : ℚ) (k : ℤ) (h : ¬ isHalfPaisaTie t) :
    pyRound2 (t + (k : ℚ)/100) = pyRound2 t + (k : ℚ)/100 := by
  have hne : |t * 100 - rhe (t * 100)| < 1/2 := by
    rcases rhe_cases (t * 100) with hlt | ⟨htie, _⟩
    · exact hlt
    · exfalso
      apply h
      unfold isHalfPaisaTie
      rcases htie with ht | ht
      · have hfl : ⌊t * 100⌋ = rhe (t * 100) := by
          rw [Int.floor_eq_iff]
          constructor
          · linarith
          · linarith
        rw [hfl]
        exact ht
      · have hfl : ⌊t * 100⌋ = rhe (t * 100) - 1 := by
          rw [Int.floor_eq_iff]
          constructor
          · push_cast
            linarith
          · push_cast
            linarith
        rw [hfl]
        push_cast
        linarith
  unfold pyRound2
  have h1 : (t + (k : ℚ)/100) * 100 = t * 100 + k := by ring
  rw [h1, rhe_add_int_of_ne_tie _ _ hne]
  push_cast
  ring

/-- A rational with at most two decimal places is never a half-paisa tie. -/
theorem not_tie_of_two_decimals (n : ℤ) : ¬ isHalfPaisaTie ((n : ℚ)/100) := by
  unfold isHalfPaisaTie
  have h1 : (n : ℚ)/100 * 100 = n := by ring
  rw [h1]
  simp

theorem spec_progressive_tax_of_le (ti : ℚ) :
    ∀ (slabs : List Slab) (prev : ℚ), ti ≤ prev → ValidSlabs prev slabs →
      spec_progressive_tax ti slabs prev = 0 := by
  intro slabs prev hle hv
  induction hv with
  | last =>
    simp only [spec_progressive_tax, spec_bracket_portion, minWithCeil]
    rw [max_eq_left (by linarith)]
    ring
  | @cons p c r rest hpc _ ih =>
    simp only [spec_progressive_tax, spec_bracket_portion, minWithCeil]
    rw [max_eq_left (by linarith [min_le_left ti c])]
    rw [ih (by linarith)]
    ring

theorem slabLoop_eq_spec (ti : ℚ) (_h0 : 0 ≤ ti) :
    ∀ (slabs : List Slab) (prev acc : ℚ), ValidSlabs prev slabs →
      slabLoop ti (some prev) slabs acc = acc + spec_progressive_tax ti slabs prev := by
  intro slabs prev acc hv
  induction hv generalizing acc with
  | @last p r =>
    simp only [slabLoop, spec_progressive_tax, spec_bracket_portion, minWithCeil]
    by_cases hle : ti ≤ p
    · rw [if_pos hle, max_eq_left (by linarith)]
      ring
    · rw [if_neg hle, max_eq_right (by linarith [not_le.mp hle])]
      ring
  | @cons p c r rest hpc hrest ih =>
    simp only [slabLoop, spec_progressive_tax, spec_bracket_portion, minWithCeil]
    by_cases hle : ti ≤ p
    · rw [if_pos hle, max_eq_left, spec_progressive_tax_of_le ti rest c (by linarith) hrest]
      · ring
      · linarith [min_le_left ti c]
    · rw [if_neg hle, ih, max_eq_right]
      · ring
      · rcases le_or_lt ti c with h | h
        · rw [min_eq_left h]
          linarith [not_le.mp hle]
        · rw [min_eq_right (le_of_lt h)]
          linarith

theorem slabLoop_none (ti acc : ℚ) (l : List Slab) : slabLoop ti none l acc = acc := by
  cases l with
  | nil => rfl
  | cons h t => rfl

theorem slabLoop_boundary (ti r : ℚ) (s₂ : List Slab) :
    ∀ (s₁ : List Slab) (prev : Option ℚ) (acc : ℚ),
      slabLoop ti prev (s₁ ++ (some ti, r) :: s₂) acc
        = slabLoop ti prev (s₁ ++ [(some ti, r)]) acc := by
  intro s₁
  induction s₁ with
  | nil =>
    intro prev acc
    rw [List.nil_append, List.nil_append]
    cases prev with
    | none => rw [slabLoop_none, slabLoop_none]
    | some p =>
      simp only [slabLoop]
      by_cases hle : ti ≤ p
      · rw [if_pos hle, if_pos hle]
      · rw [if_neg hle, if_neg hle]
        cases s₂ with
        | nil => rfl
        | cons b t =>
          obtain ⟨cb, rb⟩ := b
          simp only [slabLoop]
          rw [if_pos (le_refl ti)]
  | cons hd tl ih =>
    intro prev acc
    obtain ⟨c₀, r₀⟩ := hd
    rw [List.cons_append, List.cons_append]
    cases prev with
    | none => rw [slabLoop_none, slabLoop_none]
    | some p =>
      simp only [slabLoop]
      by_cases hle : ti ≤ p
      · rw [if_pos hle, if_pos hle]
      · rw [if_neg hle, if_neg hle]
        exact ih c₀ _

/-- Claim C2: on a non-negative taxable income and a bracket table with
strictly increasing ceilings ending in an unbounded bracket,
`_calculate_slab_tax` computes the specification's progressive sum; it
returns `0` on income exactly `0`, and an income exactly equal to a bracket
ceiling is taxed entirely within the table up to that bracket — the
brackets after it (in particular the next bracket's rate) contribute
nothing. -/
theorem claim_C2 :
    (∀ (ti : ℚ) (slabs : List Slab), 0 ≤ ti → ValidSlabs 0 slabs →
        calculate_slab_tax ti slabs = spec_progressive_tax ti slabs 0)
    ∧ (∀ slabs : List Slab, calculate_slab_tax 0 slabs = 0)
    ∧ (∀ (ti r : ℚ) (s₁ s₂ : List Slab),
        calculate_slab_tax ti (s₁ ++ (some ti, r) :: s₂)
          = calculate_slab_tax ti (s₁ ++ [(some ti, r)])) := by
  refine ⟨?_, ?_, ?_⟩
  · intro ti slabs h0 hv
    unfold calculate_slab_tax
    rw [slabLoop_eq_spec ti h0 slabs 0 0 hv]
    ring
  · intro slabs
    unfold calculate_slab_tax
    cases slabs with
    | nil => rfl
    | cons b t =>
      obtain ⟨c, r⟩ := b
      simp only [slabLoop]
      rw [if_pos (le_refl (0 : ℚ))]
  · intro ti r s₁ s₂
    unfold calculate_slab_tax
    exact slabLoop_boundary ti r s₂ s₁ (some 0) 0

/-- Witness for C2 at the old-regime table and taxable income 700000. -/
theorem claim_C2_witness :
    calculate_slab_tax 700000 OLD_REGIME_SLABS
      = spec_progressive_tax 700000 OLD_REGIME_SLABS 0 :=
  claim_C2.1 700000 OLD_REGIME_SLABS (by norm_num)
    (by
      unfold OLD_REGIME_SLABS
      exact ValidSlabs.cons (by norm_num)
        (ValidSlabs.cons (by norm_num)
          (ValidSlabs.cons (by norm_num) ValidSlabs.last)))

theorem old_slab_le_rebate (ti : ℚ) (h : ti ≤ 500000) :
    calculate_slab_tax ti OLD_REGIME_SLABS ≤ 12500 := by
  unfold calculate_slab_tax OLD_REGIME_SLABS
  simp only [slabLoop, minWithCeil]
  split_ifs with h0 h1
  · norm_num
  · ring_nf
    norm_num
  · rw [min_eq_left h]
    ring_nf
    linarith

/-- Claim C3: the Section 87A rebate is a hard cliff on taxable income, in
both regimes; at or below the ceiling the net tax is
`max(0, tax - min(tax, max_rebate))` — which is `0` for the old regime's
own slab tax — and above the ceiling the slab tax is returned untouched;
in the new regime, taxable income exactly `1200000` nets zero tax while
`1200001` nets the full un-rebated slab tax. -/
theorem claim_C3 :
    (∀ ti tax : ℚ, ti ≤ OLD_87A_TAXABLE_CEILING →
        apply_87a_old ti tax = max 0 (tax - min tax OLD_87A_MAX_REBATE))
    ∧ (∀ ti : ℚ, ti ≤ OLD_87A_TAXABLE_CEILING →
        apply_87a_old ti (calculate_slab_tax ti OLD_REGIME_SLABS) = 0)
    ∧ (∀ ti tax : ℚ, OLD_87A_TAXABLE_CEILING < ti → apply_87a_old ti tax = tax)
    ∧ (∀ ti tax : ℚ, ti ≤ NEW_87A_TAXABLE_CEILING →
        apply_87a_new ti tax = max 0 (tax - min tax NEW_87A_MAX_REBATE))
    ∧ (∀ ti tax : ℚ, NEW_87A_TAXABLE_CEILING < ti → apply_87a_new ti tax = tax)
    ∧ apply_87a_new 1200000 (calculate_slab_tax 1200000 NEW_REGIME_SLABS) = 0
    ∧ apply_87a_new 1200001 (calculate_slab_tax 1200001 NEW_REGIME_SLABS)
        = calculate_slab_tax 1200001 NEW_REGIME_SLABS := by
  refine ⟨?_, ?_, ?_, ?_, ?_, ?_, ?_⟩
  · intro ti tax h
    unfold apply_87a_old
    rw [if_pos h]
  · intro ti h
    unfold apply_87a_old
    rw [if_pos h]
    simp only [OLD_87A_MAX_REBATE]
    rw [min_eq_left (old_slab_le_rebate ti h)]
    simp
  · intro ti tax h
    unfold apply_87a_old
    rw [if_neg (not_le.mpr h)]
  · intro ti tax h
    unfold apply_87a_new
    rw [if_pos h]
  · intro ti tax h
    unfold apply_87a_new
    rw [if_neg (not_le.mpr h)]
  · have hs : calculate_slab_tax 1200000 NEW_REGIME_SLABS = 60000 := by
      norm_num [calculate_slab_tax, NEW_REGIME_SLABS, slabLoop, minWithCeil, min_def]
    rw [hs]
    norm_num [apply_87a_new, NEW_87A_TAXABLE_CEILING, NEW_87A_MAX_REBATE, min_def, max_def]
  · unfold apply_87a_new
    rw [if_neg (by norm_num [NEW_87A_TAXABLE_CEILING])]

/-- Witness for C3: concrete instances of each quantified conjunct. -/
theorem claim_C3_witness :
    apply_87a_old 400000 10000 = max 0 (10000 - min 10000 OLD_87A_MAX_REBATE)
    ∧ apply_87a_old 400000 (calculate_slab_tax 400000 OLD_REGIME_SLABS) = 0
    ∧ apply_87a_old 500001 999 = 999
    ∧ apply_87a_new 1000000 70000 = max 0 (70000 - min 70000 NEW_87A_MAX_REBATE)
    ∧ apply_87a_new 1200001 70000 = 70000 :=
  ⟨claim_C3.1 400000 10000 (by norm_num [OLD_87A_TAXABLE_CEILING]),
   claim_C3.2.1 400000 (by norm_num [OLD_87A_TAXABLE_CEILING]),
   claim_C3.2.2.1 500001 999 (by norm_num [OLD_87A_TAXABLE_CEILING]),
   claim_C3.2.2.2.1 1000000 70000 (by norm_num [NEW_87A_TAXABLE_CEILING]),
   claim_C3.2.2.2.2.1 1200001 70000 (by norm_num [NEW_87A_TAXABLE_CEILING])⟩

theorem pyRound2_eq_of (q : ℚ) (n : ℤ) (h : |q * 100 - n| < 1/2) :
    pyRound2 q = (n : ℚ)/100 := by
  unfold pyRound2
  rw [rhe_of_abs_lt _ _ h]

theorem compare_recommended (p : UserFinancialProfile) :
    (compare_regimes p).recommended_regime =
      if (calculate_old_regime p).total_tax < (calculate_new_regime p).total_tax
      then "old" else "new" := by
  simp only [compare_regimes]
  split_ifs <;> rfl

theorem compare_savings (p : UserFinancialProfile) :
    (compare_regimes p).savings_amount = pyRound2
      (if (calculate_old_regime p).total_tax < (calculate_new_regime p).total_tax
       then (calculate_new_regime p).total_tax - (calculate_old_regime p).total_tax
       else if (calculate_new_regime p).total_tax < (calculate_old_regime p).total_tax
       then (calculate_old_regime p).total_tax - (calculate_new_regime p).total_tax
       else 0) := by
  simp only [compare_regimes]
  split_ifs <;> rfl

theorem scenarioA_old_total : (calculate_old_regime scenarioA_profile).total_tax = 54600 := by
  have h1 : old_tax_after_87a scenarioA_profile = 52500 := by
    have h0 : old_taxable_income scenarioA_profile = 700000 := by
      norm_num [old_taxable_income, gross_income, old_total_deductions, old_breakdown,
        calculate_hra_exemption, calculate_80d, calculate_80tta_ttb_old, orZero,
        scenarioA_profile, OLD_STD_DEDUCTION, CAP_80C, CAP_80D_SELF_UNDER60,
        CAP_80D_PARENTS_NON_SENIOR, CAP_80CCD1B, CAP_80TTA, CAP_24B, min_def, max_def]
    rw [old_tax_after_87a, h0]
    norm_num [calculate_slab_tax, OLD_REGIME_SLABS, slabLoop, minWithCeil, min_def,
      apply_87a_old, OLD_87A_TAXABLE_CEILING]
  show pyRound2 (old_tax_after_87a scenarioA_profile
        + pyRound2 (old_tax_after_87a scenarioA_profile * CESS_RATE)) = 54600
  rw [h1, show (52500 : ℚ) * CESS_RATE = 2100 by norm_num [CESS_RATE],
    pyRound2_eq_of 2100 210000 (by norm_num),
    show (52500 : ℚ) + (210000 : ℤ)/100 = 54600 by push_cast; norm_num,
    pyRound2_eq_of 54600 5460000 (by norm_num)]
  norm_num

theorem scenarioA_new_total : (calculate_new_regime scenarioA_profile).total_tax = 0 := by
  have h1 : new_tax_after_87a scenarioA_profile = 0 := by
    have h0 : new_taxable_income scenarioA_profile = 725000 := by
      norm_num [new_taxable_income, gross_income, new_total_deductions, orZero,
        scenarioA_profile, NEW_STD_DEDUCTION, CAP_80CCD2_PCT, min_def, max_def]
    rw [new_tax_after_87a, h0]
    norm_num [calculate_slab_tax, NEW_REGIME_SLABS, slabLoop, minWithCeil, min_def, max_def,
      apply_87a_new, NEW_87A_TAXABLE_CEILING, NEW_87A_MAX_REBATE]
  show pyRound2 (new_tax_after_87a scenarioA_profile
        + pyRound2 (new_tax_after_87a scenarioA_profile * CESS_RATE)) = 0
  rw [h1, show (0 : ℚ) * CESS_RATE = 0 by ring, pyRound2_eq_of 0 0 (by norm_num)]
  rw [show (0 : ℚ) + (0 : ℤ)/100 = 0 by norm_num, pyRound2_eq_of 0 0 (by norm_num)]
  norm_num

/-- Claim C1 (end-to-end scenario A). -/
theorem claim_C1 :
    (compare_regimes scenarioA_profile).old_regime.total_tax = 54600
    ∧ (compare_regimes scenarioA_profile).new_regime.total_tax = 0
    ∧ (compare_regimes scenarioA_profile).recommended_regime = "new"
    ∧ (compare_regimes scenarioA_profile).savings_amount = 54600 := by
  refine ⟨scenarioA_old_total, scenarioA_new_total, ?_, ?_⟩
  · rw [compare_recommended, if_neg (by rw [scenarioA_old_total, scenarioA_new_total]; norm_num)]
  · rw [compare_savings, if_neg (by rw [scenarioA_old_total, scenarioA_new_total]; norm_num),
      if_pos (by rw [scenarioA_old_total, scenarioA_new_total]; norm_num)]
    rw [scenarioA_old_total, scenarioA_new_total,
      show (54600 : ℚ) - 0 = 54600 by ring, pyRound2_eq_of 54600 5460000 (by norm_num)]
    norm_num

theorem pyRound2_eq_of_half (q : ℚ) (m : ℤ) (hq : q * 100 = (m : ℚ) + 1/2) :
    pyRound2 q = ((if m % 2 = 0 then m else m + 1 : ℤ) : ℚ)/100 := by
  unfold pyRound2
  rw [hq, rhe_half_add]

theorem scenarioA_old_t87 : old_tax_after_87a scenarioA_profile = 52500 := by
  have h0 : old_taxable_income scenarioA_profile = 700000 := by
    norm_num [old_taxable_income, gross_income, old_total_deductions, old_breakdown,
      calculate_hra_exemption, calculate_80d, calculate_80tta_ttb_old, orZero,
      scenarioA_profile, OLD_STD_DEDUCTION, CAP_80C, CAP_80D_SELF_UNDER60,
      CAP_80D_PARENTS_NON_SENIOR, CAP_80CCD1B, CAP_80TTA, CAP_24B, min_def, max_def]
  rw [old_tax_after_87a, h0]
  norm_num [calculate_slab_tax, OLD_REGIME_SLABS, slabLoop, minWithCeil, min_def,
    apply_87a_old, OLD_87A_TAXABLE_CEILING]

/-- Claim C4, amended: the cess equation holds for every profile, on both
regimes; the total-tax equation holds whenever the post-rebate tax is not an
exact half-paisa tie (in particular whenever it has at most two decimal
places), because `total_tax` is rounded from the *unrounded* post-rebate tax
while `tax_before_cess` stores its rounding. -/
theorem claim_C4_amended (p : UserFinancialProfile) :
    ((calculate_old_regime p).cess
        = pyRound2 ((4/100) * (calculate_old_regime p).tax_before_cess)
      ∧ (calculate_new_regime p).cess
        = pyRound2 ((4/100) * (calculate_new_regime p).tax_before_cess))
    ∧ (¬ isHalfPaisaTie (old_tax_after_87a p) →
        (calculate_old_regime p).total_tax
          = (calculate_old_regime p).tax_before_cess + (calculate_old_regime p).cess)
    ∧ (¬ isHalfPaisaTie (new_tax_after_87a p) →
        (calculate_new_regime p).total_tax
          = (calculate_new_regime p).tax_before_cess + (calculate_new_regime p).cess) := by
  refine ⟨⟨?_, ?_⟩, ?_, ?_⟩
  · show pyRound2 (old_tax_after_87a p * CESS_RATE)
      = pyRound2 ((4/100) * pyRound2 (old_tax_after_87a p))
    rw [mul_comm (4/100 : ℚ) (pyRound2 (old_tax_after_87a p))]
    exact pyRound2_cess_comm (old_tax_after_87a p)
  · show pyRound2 (new_tax_after_87a p * CESS_RATE)
      = pyRound2 ((4/100) * pyRound2 (new_tax_after_87a p))
    rw [mul_comm (4/100 : ℚ) (pyRound2 (new_tax_after_87a p))]
    exact pyRound2_cess_comm (new_tax_after_87a p)
  · intro h
    show pyRound2 (old_tax_after_87a p + pyRound2 (old_tax_after_87a p * CESS_RATE))
      = pyRound2 (old_tax_after_87a p) + pyRound2 (old_tax_after_87a p * CESS_RATE)
    exact pyRound2_add_mul_of_ne_tie _ _ h
  · intro h
    show pyRound2 (new_tax_after_87a p + pyRound2 (new_tax_after_87a p * CESS_RATE))
      = pyRound2 (new_tax_after_87a p) + pyRound2 (new_tax_after_87a p * CESS_RATE)
    exact pyRound2_add_mul_of_ne_tie _ _ h

/-- Witness for C4 (amended) at scenario A, where the post-rebate tax 52500
has two decimals so both equations hold. -/
theorem claim_C4_amended_witness :
    (calculate_old_regime scenarioA_profile).total_tax
      = (calculate_old_regime scenarioA_profile).tax_before_cess
        + (calculate_old_regime scenarioA_profile).cess :=
  (claim_C4_amended scenarioA_profile).2.1
    (by rw [show old_tax_after_87a scenarioA_profile = ((5250000 : ℤ) : ℚ)/100 by
          rw [scenarioA_old_t87]; norm_num]
        exact not_tie_of_two_decimals 5250000)

theorem c4_tax_after : old_tax_after_87a c4_profile = 112500 + 27/200 := by
  have h0 : old_taxable_income c4_profile = 1000000 + 45/100 := by
    norm_num [old_taxable_income, gross_income, old_total_deductions, old_breakdown,
      calculate_hra_exemption, calculate_80d, calculate_80tta_ttb_old, orZero,
      c4_profile, OLD_STD_DEDUCTION, CAP_80C, CAP_80D_SELF_UNDER60,
      CAP_80D_PARENTS_NON_SENIOR, CAP_80CCD1B, CAP_80TTA, CAP_24B, min_def, max_def]
  rw [old_tax_after_87a, h0]
  norm_num [calculate_slab_tax, OLD_REGIME_SLABS, slabLoop, minWithCeil, min_def,
    apply_87a_old, OLD_87A_TAXABLE_CEILING]

/-- Counterexample to claim C4 as stated: on the valid profile `c4_profile`
the stored fields satisfy `total_tax = 117000.14` but
`tax_before_cess + cess = 112500.14 + 4500.01 = 117000.15`. -/
theorem claim_C4_counterexample :
    (calculate_old_regime c4_profile).total_tax
      ≠ (calculate_old_regime c4_profile).tax_before_cess
        + (calculate_old_regime c4_profile).cess := by
  have htbc : (calculate_old_regime c4_profile).tax_before_cess = 11250014/100 := by
    show pyRound2 (old_tax_after_87a c4_profile) = _
    rw [c4_tax_after, pyRound2_eq_of_half _ 11250013 (by norm_num)]
    norm_num
  have hcess : (calculate_old_regime c4_profile).cess = 450001/100 := by
    show pyRound2 (old_tax_after_87a c4_profile * CESS_RATE) = _
    rw [c4_tax_after,
      show (112500 + 27/200 : ℚ) * CESS_RATE = 4500 + 54/10000 by norm_num [CESS_RATE],
      pyRound2_eq_of (4500 + 54/10000) 450001
        (by rw [abs_sub_lt_iff]; constructor <;> norm_num)]
    norm_num
  have htot : (calculate_old_regime c4_profile).total_tax = 11700014/100 := by
    show pyRound2 (old_tax_after_87a c4_profile
        + pyRound2 (old_tax_after_87a c4_profile * CESS_RATE)) = _
    rw [c4_tax_after,
      show (112500 + 27/200 : ℚ) * CESS_RATE = 4500 + 54/10000 by norm_num [CESS_RATE],
      pyRound2_eq_of (4500 + 54/10000) 450001
        (by rw [abs_sub_lt_iff]; constructor <;> norm_num),
      show (112500 + 27/200 : ℚ) + (450001 : ℤ)/100 = 117000 + 29/200 by push_cast; norm_num,
      pyRound2_eq_of_half (117000 + 29/200) 11700014 (by norm_num)]
    norm_num
  rw [htot, htbc, hcess]
  norm_num

/-- Claim C5: for every profile (no validity assumption needed), the
new-regime breakdown is zero everywhere except the standard deduction
(75000) and employer NPS (capped at 10% of basic), and the old-regime
breakdown never applies employer NPS. -/
theorem claim_C5 (p : UserFinancialProfile) :
    (calculate_new_regime p).deduction_breakdown.standard_deduction = 75000
    ∧ (calculate_new_regime p).deduction_breakdown.section_80ccd2
        = min (orZero p.employer_nps_80ccd2) ((10/100) * p.basic_salary)
    ∧ (calculate_new_regime p).deduction_breakdown.hra_exemption = 0
    ∧ (calculate_new_regime p).deduction_breakdown.section_80c = 0
    ∧ (calculate_new_regime p).deduction_breakdown.section_80d = 0
    ∧ (calculate_new_regime p).deduction_breakdown.section_80ccd1b = 0
    ∧ (calculate_new_regime p).deduction_breakdown.section_80tta_ttb = 0
    ∧ (calculate_new_regime p).deduction_breakdown.section_24b = 0
    ∧ (calculate_new_regime p).deduction_breakdown.professional_tax = 0
    ∧ (calculate_old_regime p).deduction_breakdown.section_80ccd2 = 0 :=
  ⟨rfl, rfl, rfl, rfl, rfl, rfl, rfl, rfl, rfl, rfl⟩

/-- Claim C6: the HRA exemption is zero when no HRA is received or no rent
is paid, otherwise the minimum of the three Rule 2A components; the third
component is floored at zero. -/
theorem claim_C6 (p : UserFinancialProfile) :
    (orZero p.hra_received = 0 ∨ orZero p.monthly_rent_paid = 0 →
      calculate_hra_exemption p = 0)
    ∧ (orZero p.hra_received ≠ 0 → orZero p.monthly_rent_paid ≠ 0 →
      calculate_hra_exemption p =
        min (min (orZero p.hra_received)
            ((match p.city_type with
              | CityType.metro => (50/100 : ℚ)
              | CityType.non_metro => (40/100 : ℚ)) * p.basic_salary))
          (max 0 (12 * orZero p.monthly_rent_paid - (10/100) * p.basic_salary)))
    ∧ 0 ≤ max 0 (12 * orZero p.monthly_rent_paid - (10/100) * p.basic_salary) := by
  refine ⟨?_, ?_, le_max_left 0 _⟩
  · intro h
    simp only [calculate_hra_exemption]
    rw [if_pos h]
  · intro h1 h2
    simp only [calculate_hra_exemption]
    rw [if_neg (not_or.mpr ⟨h1, h2⟩), mul_comm (orZero p.monthly_rent_paid) 12]

/-- Witness for C6: both branches at concrete profiles. -/
theorem claim_C6_witness :
    calculate_hra_exemption scenarioA_profile = 0
    ∧ calculate_hra_exemption c6_profile =
        min (min (orZero c6_profile.hra_received)
            ((match c6_profile.city_type with
              | CityType.metro => (50/100 : ℚ)
              | CityType.non_metro => (40/100 : ℚ)) * c6_profile.basic_salary))
          (max 0 (12 * orZero c6_profile.monthly_rent_paid
            - (10/100) * c6_profile.basic_salary)) :=
  ⟨(claim_C6 scenarioA_profile).1 (Or.inl rfl),
   (claim_C6 c6_profile).2.1 (by norm_num [orZero, c6_profile])
     (by norm_num [orZero, c6_profile])⟩

theorem rrfAccum_eval {ι : Type} [DecidableEq ι] :
    ∀ (l : List ι) (start : ℕ) (sc : ι → ℚ) (x : ι), l.Nodup →
      rrfAccum start sc l x
        = sc x + (if x ∈ l then 1/(60 + (((start + l.indexOf x : ℕ)) : ℚ) + 1) else 0) := by
  intro l
  induction l with
  | nil =>
    intro start sc x _
    simp [rrfAccum]
  | cons c t ih =>
    intro start sc x hnd
    rw [List.nodup_cons] at hnd
    obtain ⟨hc, hnt⟩ := hnd
    simp only [rrfAccum]
    rw [ih (start + 1) _ x hnt]
    by_cases hx : x = c
    · subst hx
      rw [if_pos rfl, if_neg hc, if_pos (List.mem_cons_self x t), List.indexOf_cons_self]
      push_cast
      ring
    · rw [if_neg hx]
      by_cases hxt : x ∈ t
      · rw [if_pos hxt, if_pos (List.mem_cons_of_mem c hxt),
          List.indexOf_cons_ne t (fun h => hx h.symm)]
        have harith : (start + 1) + t.indexOf x = start + Nat.succ (t.indexOf x) := by omega
        rw [← harith]
      · rw [if_neg hxt, if_neg (by simp [hx, hxt])]

theorem rrf_scores_eval {ι : Type} [DecidableEq ι]
    (dense sparse : List ι) (hd : dense.Nodup) (hs : sparse.Nodup) (cid : ι) :
    rrf_scores dense sparse cid
      = (if cid ∈ dense then 1/(60 + ((dense.indexOf cid : ℕ) : ℚ) + 1) else 0)
        + (if cid ∈ sparse then 1/(60 + ((sparse.indexOf cid : ℕ) : ℚ) + 1) else 0) := by
  unfold rrf_scores
  rw [rrfAccum_eval sparse 0 _ cid hs, rrfAccum_eval dense 0 _ cid hd]
  simp only [Nat.zero_add]
  ring

theorem rrfContrib_pos (n : ℕ) : (0 : ℚ) < 1/(60 + (n : ℚ) + 1) := by
  apply div_pos one_pos
  have : (0 : ℚ) ≤ (n : ℚ) := Nat.cast_nonneg n
  linarith

theorem rrfOrder_total {ι : Type} [LinearOrder ι] (sc : ι → ℚ) :
    ∀ a b : ι, rrfOrder sc a b ∨ rrfOrder sc b a := by
  intro a b
  rcases lt_trichotomy (sc a) (sc b) with h | h | h
  · right
    exact Or.inl h
  · rcases le_total a b with hab | hab
    · exact Or.inl (Or.inr ⟨h, hab⟩)
    · exact Or.inr (Or.inr ⟨h.symm, hab⟩)
  · exact Or.inl (Or.inl h)

theorem rrfOrder_trans {ι : Type} [LinearOrder ι] (sc : ι → ℚ) :
    ∀ a b c : ι, rrfOrder sc a b → rrfOrder sc b c → rrfOrder sc a c := by
  intro a b c hab hbc
  rcases hab with h1 | ⟨h1, h1'⟩
  · rcases hbc with h2 | ⟨h2, _⟩
    · exact Or.inl (lt_trans h2 h1)
    · exact Or.inl (h2 ▸ h1)
  · rcases hbc with h2 | ⟨h2, h2'⟩
    · exact Or.inl (h1 ▸ h2)
    · exact Or.inr ⟨h1.trans h2, h1'.trans h2'⟩

/-- Claim C7: on deduplicated ranked lists of up to 20 chunk ids, the fused
score of every id is the sum over the lists containing it of
`1/(60 + rank)` at 1-indexed rank (`indexOf` is 0-indexed, hence the
`+ 1`); an id present in both lists scores strictly more than either
contribution alone; and `hybrid_search` returns the first 10 of a
permutation of all distinct ids sorted by descending fused score with the
id itself as tie-break. -/
theorem claim_C7 {ι : Type} [DecidableEq ι] [LinearOrder ι]
    (dense sparse : List ι) (hd : dense.Nodup) (hs : sparse.Nodup)
    (_hld : dense.length ≤ 20) (_hls : sparse.length ≤ 20) :
    (∀ cid, rrf_scores dense sparse cid
        = (if cid ∈ dense then 1/(60 + ((dense.indexOf cid : ℕ) : ℚ) + 1) else 0)
          + (if cid ∈ sparse then 1/(60 + ((sparse.indexOf cid : ℕ) : ℚ) + 1) else 0))
    ∧ (∀ cid, cid ∈ dense → cid ∈ sparse →
        1/(60 + ((dense.indexOf cid : ℕ) : ℚ) + 1) < rrf_scores dense sparse cid
        ∧ 1/(60 + ((sparse.indexOf cid : ℕ) : ℚ) + 1) < rrf_scores dense sparse cid)
    ∧ (∃ full : List ι, full.Perm ((dense ++ sparse).dedup)
        ∧ List.Sorted (rrfOrder (rrf_scores dense sparse)) full
        ∧ hybrid_search dense sparse = full.take 10) := by
  refine ⟨rrf_scores_eval dense sparse hd hs, ?_, ?_⟩
  · intro cid hcd hcs
    rw [rrf_scores_eval dense sparse hd hs cid, if_pos hcd, if_pos hcs]
    constructor
    · have := rrfContrib_pos (sparse.indexOf cid)
      linarith
    · have := rrfContrib_pos (dense.indexOf cid)
      linarith
  · refine ⟨List.insertionSort (rrfOrder (rrf_scores dense sparse)) ((dense ++ sparse).dedup),
      List.perm_insertionSort _ _, ?_, rfl⟩
    haveI : IsTotal ι (rrfOrder (rrf_scores dense sparse)) := ⟨rrfOrder_total _⟩
    haveI : IsTrans ι (rrfOrder (rrf_scores dense sparse)) := ⟨rrfOrder_trans _⟩
    exact List.sorted_insertionSort _ _

/-- Witness for C7 at dense ranks `[0, 1]`, sparse ranks `[1, 2]`: chunk 1
appears in both lists and its fused score strictly exceeds its dense-only
contribution. -/
theorem claim_C7_witness :
    (1 : ℚ)/(60 + ((([0, 1] : List ℕ).indexOf 1 : ℕ) : ℚ) + 1)
      < rrf_scores ([0, 1] : List ℕ) ([1, 2] : List ℕ) 1 :=
  ((claim_C7 [0, 1] [1, 2] (by decide) (by decide) (by decide) (by decide)).2.1
    1 (by decide) (by decide)).1

theorem validateLoop_eval (chunks : List ChunkV) :
    ∀ ms : List (List Char),
      validateLoop chunks ms
        = (ms.map (mkCitation chunks), ms.all (citationVerified chunks)) := by
  intro ms
  induction ms with
  | nil => rfl
  | cons raw rest ih =>
    simp only [validateLoop, ih, List.map_cons, List.all_cons]

/-- The citation list returned by `validate_citations`: one output citation
per extracted match, in match order. -/
theorem validate_citations_fst (answer : List Char) (chunks : List ChunkV) :
    (validate_citations answer chunks).1
      = (extractCitations answer).map (mkCitation chunks) := by
  unfold validate_citations
  by_cases h : (extractCitations answer).isEmpty
  · rw [if_pos h, List.isEmpty_iff.mp h]
    rfl
  · rw [if_neg h, validateLoop_eval]

/-- The confidence returned by `validate_citations`. -/
theorem validate_citations_snd (answer : List Char) (chunks : List ChunkV) :
    (validate_citations answer chunks).2
      = if ¬ (extractCitations answer).isEmpty
           ∧ (extractCitations answer).all (citationVerified chunks)
        then "high" else "low" := by
  unfold validate_citations
  by_cases h : (extractCitations answer).isEmpty
  · rw [if_pos h, if_neg (by simp [h])]
  · rw [if_neg h, validateLoop_eval]
    have hne : ((extractCitations answer).map (mkCitation chunks)).isEmpty = false := by
      have hnil : extractCitations answer ≠ [] := fun he => h (by simp [he])
      cases hcl : extractCitations answer with
      | nil => exact absurd hcl hnil
      | cons a t => simp [hcl]
    by_cases hall : (extractCitations answer).all (citationVerified chunks)
    · rw [if_pos ⟨h, hall⟩]
      simp [hne, hall]
    · rw [if_neg (fun hc => hall hc.2)]
      have hf : (extractCitations answer).all (citationVerified chunks) = false := by
        revert hall
        cases (extractCitations answer).all (citationVerified chunks) <;> simp
      simp [hf]

/-- Every output citation's section is the extracted reference with the
fixed text `Section ` in front, whichever keyword matched it. -/
theorem mkCitation_section (chunks : List ChunkV) (raw : List Char) :
    (mkCitation chunks raw).citSection = "Section ".toList ++ stripC raw := by
  simp only [mkCitation]
  cases chunks.find? (fun c => chunkSupports (stripC raw) c) with
  | none => rfl
  | some c => rfl

theorem mkCitation_excerpt_unverified (chunks : List ChunkV) (raw : List Char)
    (hv : citationVerified chunks raw = false) :
    (mkCitation chunks raw).excerpt = [] := by
  simp only [citationVerified] at hv
  simp only [mkCitation]
  cases hfind : chunks.find? (fun c => chunkSupports (stripC raw) c) with
  | none => rfl
  | some c =>
    rw [hfind] at hv
    simp at hv

/-- Claim C8: confidence is `"high"` exactly when at least one citation was
extracted and every one passed the cross-check; zero extracted citations
give an empty list with `"low"`; and an unverified citation is kept in the
output (the list maps every match) with an empty excerpt. -/
theorem claim_C8 (answer : List Char) (chunks : List ChunkV) :
    ((validate_citations answer chunks).2 = "high"
      ↔ extractCitations answer ≠ []
        ∧ ∀ raw ∈ extractCitations answer, citationVerified chunks raw = true)
    ∧ (extractCitations answer = [] → validate_citations answer chunks = ([], "low"))
    ∧ (validate_citations answer chunks).1
        = (extractCitations answer).map (mkCitation chunks)
    ∧ (∀ raw, citationVerified chunks raw = false →
        (mkCitation chunks raw).excerpt = []) := by
  refine ⟨?_, ?_, validate_citations_fst answer chunks,
    mkCitation_excerpt_unverified chunks⟩
  · rw [validate_citations_snd]
    by_cases h : (extractCitations answer).isEmpty
    · rw [if_neg (by simp [h])]
      constructor
      · intro hx
        exact absurd hx (by decide)
      · rintro ⟨hne, _⟩
        exact absurd (List.isEmpty_iff.mp h) hne
    · by_cases hall : (extractCitations answer).all (citationVerified chunks)
      · rw [if_pos ⟨h, hall⟩]
        constructor
        · intro _
          exact ⟨fun he => h (by simp [he]), List.all_eq_true.mp hall⟩
        · intro _
          rfl
      · rw [if_neg (fun hc => hall hc.2)]
        constructor
        · intro hx
          exact absurd hx (by decide)
        · rintro ⟨_, hforall⟩
          exact absurd (List.all_eq_true.mpr hforall) hall
  · intro he
    unfold validate_citations
    rw [if_pos (by simp [he])]

/-- Witness for C8: a citation-free answer yields `([], "low")`. -/
theorem claim_C8_witness :
    validate_citations "Standard deduction is 75000 in the new regime.".toList []
      = ([], "low") :=
  (claim_C8 "Standard deduction is 75000 in the new regime.".toList []).2.1 (by decide)

/-- Claim C10: every returned citation's section field is the captured
reference with the literal `Section ` in front, whatever keyword it was
extracted with; in particular `[Rule 2A, IT Rules 1962]` is extracted as
`2A` and reported as `Section 2A`. -/
theorem claim_C10 :
    (∀ (answer : List Char) (chunks : List ChunkV) (cit : CitationOut),
        cit ∈ (validate_citations answer chunks).1 →
        ∃ raw ∈ extractCitations answer,
          cit.citSection = "Section ".toList ++ stripC raw)
    ∧ extractCitations "[Rule 2A, IT Rules 1962]".toList = [['2', 'A']]
    ∧ (validate_citations "[Rule 2A, IT Rules 1962]".toList []).1
        = [{ citSection := "Section 2A".toList, excerpt := [] }] := by
  refine ⟨?_, by decide, by decide⟩
  intro answer chunks cit hmem
  rw [validate_citations_fst] at hmem
  obtain ⟨raw, hraw, hcit⟩ := List.mem_map.mp hmem
  exact ⟨raw, hraw, by rw [← hcit, mkCitation_section]⟩

/-- Witness for C10's quantified part at the `[Rule 2A, IT Rules 1962]`
example. -/
theorem claim_C10_witness :
    ∃ raw ∈ extractCitations "[Rule 2A, IT Rules 1962]".toList,
      ({ citSection := "Section 2A".toList, excerpt := [] } : CitationOut).citSection
        = "Section ".toList ++ stripC raw :=
  claim_C10.1 "[Rule 2A, IT Rules 1962]".toList []
    { citSection := "Section 2A".toList, excerpt := [] } (by decide)

theorem compare_rationale_of_old_lt (p : UserFinancialProfile)
    (h : (calculate_old_regime p).total_tax < (calculate_new_regime p).total_tax) :
    (compare_regimes p).rationale = RationaleT.oldWins
      ((calculate_new_regime p).total_tax - (calculate_old_regime p).total_tax)
      (calculate_old_regime p).total_tax (calculate_new_regime p).total_tax
      (rationaleKeyDeds (calculate_old_regime p).deduction_breakdown) := by
  simp only [compare_regimes]
  rw [if_pos h]
  rw [if_neg (sub_ne_zero.mpr (ne_of_gt h))]
  rw [if_pos rfl]

theorem rationaleKeyDeds_length (bd : DeductionBreakdown) :
    (rationaleKeyDeds bd).length ≤ 3 := by
  unfold rationaleKeyDeds
  rw [List.length_take]
  exact min_le_left _ _

theorem rationaleKeyDeds_mem (bd : DeductionBreakdown) :
    ∀ x ∈ rationaleKeyDeds bd,
      0 < x.2 ∧ x.1 ∈ (["HRA exemption", "80C", "80D", "Section 24(b)"] : List String) := by
  intro x hx
  unfold rationaleKeyDeds at hx
  have hx' := List.mem_of_mem_take hx
  simp only [List.mem_append] at hx'
  rcases hx' with ((h1 | h2) | h3) | h4
  · split_ifs at h1 with hc
    · rw [List.mem_singleton] at h1
      subst h1
      exact ⟨hc, by simp⟩
    · exact absurd h1 (List.not_mem_nil x)
  · split_ifs at h2 with hc
    · rw [List.mem_singleton] at h2
      subst h2
      exact ⟨hc, by simp⟩
    · exact absurd h2 (List.not_mem_nil x)
  · split_ifs at h3 with hc
    · rw [List.mem_singleton] at h3
      subst h3
      exact ⟨hc, by simp⟩
    · exact absurd h3 (List.not_mem_nil x)
  · split_ifs at h4 with hc
    · rw [List.mem_singleton] at h4
      subst h4
      exact ⟨hc, by simp⟩
    · exact absurd h4 (List.not_mem_nil x)

/-- Claim C9, amended: when the old regime strictly wins, the rationale is
the old-wins template whose deduction list is `rationaleKeyDeds` of the
old-regime breakdown — the first at most three *nonzero* deductions taken
in the fixed candidate order HRA exemption, 80C, 80D, Section 24(b) (not
the largest ones, and never any section outside these four). -/
theorem claim_C9_amended (p : UserFinancialProfile)
    (h : (calculate_old_regime p).total_tax < (calculate_new_regime p).total_tax) :
    (compare_regimes p).rationale = RationaleT.oldWins
        ((calculate_new_regime p).total_tax - (calculate_old_regime p).total_tax)
        (calculate_old_regime p).total_tax (calculate_new_regime p).total_tax
        (rationaleKeyDeds (calculate_old_regime p).deduction_breakdown)
    ∧ (rationaleKeyDeds (calculate_old_regime p).deduction_breakdown).length ≤ 3
    ∧ ∀ x ∈ rationaleKeyDeds (calculate_old_regime p).deduction_breakdown,
        0 < x.2 ∧ x.1 ∈ (["HRA exemption", "80C", "80D", "Section 24(b)"] : List String) :=
  ⟨compare_rationale_of_old_lt p h, rationaleKeyDeds_length _, rationaleKeyDeds_mem _⟩

theorem c9_old_t87 : old_tax_after_87a c9_profile = 190980 := by
  have h0 : old_taxable_income c9_profile = 1261600 := by
    norm_num [old_taxable_income, gross_income, old_total_deductions, old_breakdown,
      calculate_hra_exemption, calculate_80d, calculate_80tta_ttb_old, orZero, c9_profile,
      OLD_STD_DEDUCTION, CAP_80C, CAP_80D_SELF_UNDER60, CAP_80D_SELF_SENIOR,
      CAP_80D_PARENTS_SENIOR, CAP_80D_PARENTS_NON_SENIOR, CAP_80CCD1B, CAP_80TTA,
      CAP_24B, min_def, max_def]
  rw [old_tax_after_87a, h0]
  norm_num [calculate_slab_tax, OLD_REGIME_SLABS, slabLoop, minWithCeil, min_def,
    apply_87a_old, OLD_87A_TAXABLE_CEILING]

theorem c9_old_total : (calculate_old_regime c9_profile).total_tax = 993096/5 := by
  show pyRound2 (old_tax_after_87a c9_profile
      + pyRound2 (old_tax_after_87a c9_profile * CESS_RATE)) = _
  rw [c9_old_t87, show (190980 : ℚ) * CESS_RATE = 38196/5 by norm_num [CESS_RATE],
    pyRound2_eq_of (38196/5) 763920 (by rw [abs_sub_lt_iff]; constructor <;> norm_num),
    show (190980 : ℚ) + (763920 : ℤ)/100 = 993096/5 by push_cast; norm_num,
    pyRound2_eq_of (993096/5) 19861920 (by rw [abs_sub_lt_iff]; constructor <;> norm_num)]
  norm_num

theorem c9_new_t87 : new_tax_after_87a c9_profile = 206250 := by
  have h0 : new_taxable_income c9_profile = 2025000 := by
    norm_num [new_taxable_income, gross_income, new_total_deductions, orZero, c9_profile,
      NEW_STD_DEDUCTION, CAP_80CCD2_PCT, min_def, max_def]
  rw [new_tax_after_87a, h0]
  norm_num [calculate_slab_tax, NEW_REGIME_SLABS, slabLoop, minWithCeil, min_def,
    apply_87a_new, NEW_87A_TAXABLE_CEILING]

theorem c9_new_total : (calculate_new_regime c9_profile).total_tax = 214500 := by
  show pyRound2 (new_tax_after_87a c9_profile
      + pyRound2 (new_tax_after_87a c9_profile * CESS_RATE)) = _
  rw [c9_new_t87, show (206250 : ℚ) * CESS_RATE = 8250 by norm_num [CESS_RATE],
    pyRound2_eq_of 8250 825000 (by rw [abs_sub_lt_iff]; constructor <;> norm_num),
    show (206250 : ℚ) + (825000 : ℤ)/100 = 214500 by push_cast; norm_num,
    pyRound2_eq_of 214500 21450000 (by rw [abs_sub_lt_iff]; constructor <;> norm_num)]
  norm_num

theorem c9_old_lt :
    (calculate_old_regime c9_profile).total_tax
      < (calculate_new_regime c9_profile).total_tax := by
  rw [c9_old_total, c9_new_total]
  norm_num

theorem c9_keydeds :
    rationaleKeyDeds (calculate_old_regime c9_profile).deduction_breakdown
      = [("HRA exemption", 450000), ("80C", 1000), ("80D", 75000)] := by
  show rationaleKeyDeds (old_breakdown c9_profile) = _
  norm_num [rationaleKeyDeds, old_breakdown, calculate_hra_exemption, calculate_80d,
    calculate_80tta_ttb_old, orZero, c9_profile, OLD_STD_DEDUCTION, CAP_80C,
    CAP_80D_SELF_UNDER60, CAP_80D_SELF_SENIOR, CAP_80D_PARENTS_SENIOR,
    CAP_80D_PARENTS_NON_SENIOR, CAP_80CCD1B, CAP_80TTA, CAP_24B, min_def, max_def,
    List.take]

/-- Counterexample to claim C9 as stated: on `c9_profile` the old regime
wins, Section 24(b) carries 200000 (nonzero, and larger than the named 80C
amount 1000), yet the rationale's deduction list is HRA, 80C, 80D — it
omits the larger 24(b) contributor, so the named deductions are not the
largest nonzero ones. -/
theorem claim_C9_counterexample :
    (compare_regimes c9_profile).recommended_regime = "old"
    ∧ (compare_regimes c9_profile).rationale
        = RationaleT.oldWins (79404/5) (993096/5) 214500
            [("HRA exemption", 450000), ("80C", 1000), ("80D", 75000)]
    ∧ (calculate_old_regime c9_profile).deduction_breakdown.section_24b = 200000
    ∧ ("Section 24(b)", (200000 : ℚ)) ∉
        ([("HRA exemption", 450000), ("80C", 1000), ("80D", 75000)] : List (String × ℚ))
    ∧ (("80C", (1000 : ℚ)) : String × ℚ) ∈
        ([("HRA exemption", 450000), ("80C", 1000), ("80D", 75000)] : List (String × ℚ))
    ∧ (1000 : ℚ) < 200000 := by
  refine ⟨?_, ?_, ?_, ?_, List.mem_cons_of_mem _ (List.mem_cons_self _ _), by norm_num⟩
  · rw [compare_recommended, if_pos c9_old_lt]
  · rw [compare_rationale_of_old_lt c9_profile c9_old_lt, c9_old_total, c9_new_total,
      c9_keydeds, show (214500 : ℚ) - 993096/5 = 79404/5 by norm_num]
  · show min (orZero c9_profile.home_loan_interest) CAP_24B = 200000
    norm_num [orZero, c9_profile, CAP_24B, min_def]
  · intro h
    simp only [List.mem_cons, List.mem_singleton, Prod.mk.injEq] at h
    rcases h with ⟨h, _⟩ | ⟨h, _⟩ | ⟨h, _⟩ | h
    · exact absurd h (by decide)
    · exact absurd h (by decide)
    · exact absurd h (by decide)
    · exact absurd h (List.not_mem_nil _)

/-- Witness for C9 (amended) at `c9_profile`, where the old regime wins. -/
theorem claim_C9_amended_witness :
    (compare_regimes c9_profile).rationale = RationaleT.oldWins
        ((calculate_new_regime c9_profile).total_tax
          - (calculate_old_regime c9_profile).total_tax)
        (calculate_old_regime c9_profile).total_tax
        (calculate_new_regime c9_profile).total_tax
        (rationaleKeyDeds (calculate_old_regime c9_profile).deduction_breakdown) :=
  (claim_C9_amended c9_profile c9_old_lt).1

end TaxMantri
